import Mathlib

/-!
Shallow embedding of the SMHI weather-data browser client
(`src/frontend/src/App.vue`, `src/frontend/src/components/TemperatureChart.vue`,
`src/frontend/src/components/CitySearch.vue`, and the simpler top-level view
variant found in `src/unnamed/part_002`).

Conventions used throughout:
- JavaScript `null`/missing optional fields are modelled with `Option`;
  JavaScript truthiness on a string is `s ≠ ""`, on an optional object or
  array it is `Option.isSome` (a present array is truthy even when empty).
- The non-seeded `Math.random()` colour fallback is modelled by an ambient
  stream `rand : Nat → Color` together with a draw counter threaded through
  dataset construction; a palette hit consumes no draw (the `||` in the
  source short-circuits before `Math.random()` runs).
- Temperatures are `Option ℚ`: `none` is the explicit no-data marker
  (JavaScript `null`), `some q` a numeric reading.
- Request targets are recorded as origin-relative paths; the simpler view
  variant prefixes `window.location.origin`, which denotes the same
  same-origin request target.
-/

/-- An RGB colour triple, as in the `rgb(r, g, b)` strings of the source. -/
structure Color where
  r : Nat
  g : Nat
  b : Nat
deriving DecidableEq, Repr

/-- A temperature reading or the explicit no-data marker (JS `null`). -/
abbrev Temp := Option ℚ

/-- The `time_range` object of monthly/historical payloads. -/
structure TimeRange where
  start : String
  «end» : String
deriving DecidableEq, Repr

/-- A backend `TemperaturePayload`, covering both the multi-city shape
(`cities` present) and the single-city shape (`temperatures` present).
The `cities` mapping is kept in its JavaScript iteration order. -/
structure Payload where
  months : List String
  cities : Option (List (String × List Temp)) := none
  city : Option String := none
  temperatures : Option (List Temp) := none
  average : Option (List Temp) := none
  station_name : Option String := none
  station_id : Option Nat := none
  period : Option String := none
  time_range : Option TimeRange := none
deriving DecidableEq, Repr

/-- The x-axis tick options set for long historical series
(`maxTicksLimit`, `maxRotation`, `minRotation`). -/
structure Ticks where
  maxTicksLimit : Nat
  maxRotation : Nat
  minRotation : Nat
deriving DecidableEq, Repr

/-- A chart title: the source sets either a plain string or a two-line
array of strings. -/
inductive TitleText where
  | single (line : String)
  | double (line1 line2 : String)
deriving DecidableEq, Repr

/-- One chart.js dataset as built by `createChart`: `borderWidth` is set
(to 3) only for the Average dataset, `pointRadius` is 3 for city datasets
and 4 for the Average dataset. -/
structure Dataset where
  label : String
  data : List Temp
  borderColor : Color
  backgroundColor : Color
  borderWidth : Option Nat
  pointRadius : Nat
deriving DecidableEq, Repr

/-- The chart specification assembled by `createChart` (the fields of the
chart.js config that carry data: labels, datasets, title text, x-axis
title, and the optional tick-thinning options). -/
structure ChartConfig where
  labels : List String
  datasets : List Dataset
  titleText : TitleText
  xAxisTitle : String
  xTicks : Option Ticks
deriving DecidableEq, Repr

/-- The fixed palette `CITY_COLORS` of `TemperatureChart.vue`. -/
def CITY_COLORS : List (String × Color) :=
  [ ("Stockholm", ⟨54, 162, 235⟩),
    ("Göteborg", ⟨255, 99, 132⟩),
    ("Malmö", ⟨75, 192, 192⟩),
    ("Uppsala", ⟨255, 159, 64⟩),
    ("Umeå", ⟨153, 102, 255⟩),
    ("Average", ⟨0, 0, 0⟩) ]

/-- `CITY_COLORS[cityName]` as an optional lookup. -/
def findColor (cityName : String) : Option Color :=
  (CITY_COLORS.find? (fun q => q.1 == cityName)).map Prod.snd

/-- The colour the source accesses as `CITY_COLORS.Average`. -/
def averageColor : Color := ⟨0, 0, 0⟩

/-- `getCityColor`: palette lookup with a `Math.random()` fallback.
The fallback consumes one draw from the stream `rand` at index `k`;
a palette hit consumes none (short-circuit of `||`). Returns the colour
and the updated draw counter. -/
def getCityColor (rand : Nat → Color) (cityName : String) (k : Nat) :
    Color × Nat :=
  match findColor cityName with
  | some c => (c, k)
  | none => (rand k, k + 1)

/-- The per-city datasets of the multi-city branch: one dataset per entry
of the `cities` mapping, in iteration order; `getCityColor` is called once
for `borderColor` and once for `backgroundColor`. -/
def cityDatasets (rand : Nat → Color) :
    List (String × List Temp) → Nat → List Dataset × Nat
  | [], k => ([], k)
  | (cityName, temperatures) :: rest, k =>
      let bc := getCityColor rand cityName k
      let fc := getCityColor rand cityName bc.2
      let tail := cityDatasets rand rest fc.2
      ({ label := cityName, data := temperatures,
         borderColor := bc.1, backgroundColor := fc.1,
         borderWidth := none, pointRadius := 3 } :: tail.1, tail.2)

/-- The single-city dataset label: augmented with the station name in
parentheses when `station_name` is truthy and differs from the city name. -/
def singleCityLabel (cityName : String) (stationName : Option String) :
    String :=
  match stationName with
  | some sn =>
      if sn ≠ "" && sn ≠ cityName then
        cityName ++ " (" ++ sn ++ ")"
      else cityName
  | none => cityName

/-- The datasets (with final draw counter) built by `createChart` before
the optional Average dataset is appended: the `cities` branch wins when
present, else the `temperatures` branch, else no dataset. -/
def baseDatasets (rand : Nat → Color) (p : Payload) : List Dataset × Nat :=
  match p.cities with
  | some m => cityDatasets rand m 0
  | none =>
      match p.temperatures with
      | some ts =>
          let cityName := p.city.getD "undefined"
          let bc := getCityColor rand cityName 0
          let fc := getCityColor rand cityName bc.2
          ([{ label := singleCityLabel cityName p.station_name,
              data := ts, borderColor := bc.1, backgroundColor := fc.1,
              borderWidth := none, pointRadius := 3 }], fc.2)
      | none => ([], 0)

/-- The Average dataset appended when `props.data.average` is truthy. -/
def averageDataset (a : List Temp) : Dataset :=
  { label := "Average", data := a,
    borderColor := averageColor, backgroundColor := averageColor,
    borderWidth := some 3, pointRadius := 4 }

/-- The x-axis title chosen by `props.data.period`. -/
def xAxisTitleOf (p : Payload) : String :=
  if p.period == some "historical" then "Year-Month"
  else if p.period == some "monthly" then "Year-Month (Last 12 Months)"
  else "Month"

/-- The title text: one line by default, a second line for historical and
monthly payloads that carry a `time_range`. -/
def titleTextOf (p : Payload) (title : String) : TitleText :=
  let t0 := TitleText.single title
  let t1 :=
    match p.time_range with
    | some tr =>
        if p.period == some "historical" then
          TitleText.double title
            ("Data range: " ++ tr.start ++ " to " ++ tr.«end»)
        else t0
    | none => t0
  match p.time_range with
  | some tr =>
      if p.period == some "monthly" then
        TitleText.double title
          ("Monthly data from " ++ tr.start ++ " to " ++ tr.«end»)
      else t1
  | none => t1

/-- The x-axis tick options: set only inside the historical-with-range
block, and there only when more than 30 month labels are present. -/
def xTicksOf (p : Payload) : Option Ticks :=
  if p.period == some "historical" && p.time_range.isSome
      && decide (p.months.length > 30) then
    some ⟨20, 45, 45⟩
  else none

/-- `createChart` of `TemperatureChart.vue` as a pure function of the
random-colour stream, the payload and the title prop. -/
def createChart (rand : Nat → Color) (p : Payload) (title : String) :
    ChartConfig :=
  let base := (baseDatasets rand p).1
  let datasets :=
    match p.average with
    | some a => base ++ [averageDataset a]
    | none => base
  { labels := p.months, datasets := datasets,
    titleText := titleTextOf p title,
    xAxisTitle := xAxisTitleOf p,
    xTicks := xTicksOf p }

/-- The city names on which `createChart` calls `getCityColor` for the
given payload (the Average dataset reads its colour directly from the
palette and is not included). -/
def payloadColorNames (p : Payload) : List String :=
  match p.cities with
  | some m => m.map Prod.fst
  | none =>
      match p.temperatures with
      | some _ => [p.city.getD "undefined"]
      | none => []

/-- A time-period mode; the source represents it as the string argument
`dataType` of `toggleDataType` and the pair of flags
`showHistorical`/`showMonthly`. -/
inductive Period where
  | recent
  | monthly
  | historical
deriving DecidableEq, Repr

/-- A `City` value as held in `selectedCity`: search results carry
coordinates, the major-city shortcut objects carry only `id` and `name`,
and the single-city fetch of `App.vue` may later attach `station_name`
and `station_id`. -/
structure City where
  id : Nat
  name : String
  latitude : Option ℚ := none
  longitude : Option ℚ := none
  station_name : Option String := none
  station_id : Option Nat := none
deriving DecidableEq, Repr

/-- The reactive state of the `App.vue` variant with the period toggle. -/
structure AppState where
  chartData : Option Payload
  loading : Bool
  error : String
  selectedCity : Option City
  showHistorical : Bool
  showMonthly : Bool
deriving DecidableEq, Repr

/-- The initial values of the refs declared in `setup()`. -/
def initialAppState : AppState :=
  { chartData := none, loading := true, error := "",
    selectedCity := none, showHistorical := false, showMonthly := false }

/-- The outcome of an awaited `axios.get`: a payload, an HTTP error
response with a status and an optional `detail` body field, or a failure
with no response object (network error, timeout). -/
inductive FetchResult where
  | success (p : Payload)
  | httpError (status : Nat) (detail : Option String)
  | networkError
deriving DecidableEq, Repr

/-- `res` is a failure (the catch branch runs). -/
def FetchResult.isFailure : FetchResult → Bool
  | .success _ => false
  | _ => true

/-- The endpoint chosen by `fetchCityData` for a city name and data type. -/
def cityEndpoint (dataType : Period) (cityName : String) : String :=
  match dataType with
  | .historical => "/api/graph/historical/" ++ cityName
  | .monthly => "/api/graph/monthly/" ++ cityName
  | .recent => "/api/graph/city/" ++ cityName

/-- The `MAJOR_CITIES` mapping of city name to station id. -/
def MAJOR_CITIES : List (String × Nat) :=
  [ ("Stockholm", 97400), ("Göteborg", 72420), ("Malmö", 53430),
    ("Uppsala", 97510), ("Umeå", 140480) ]

/-- `MAJOR_CITIES[cityName]` (the UI only passes keys of the mapping). -/
def majorCityId (cityName : String) : Nat :=
  ((MAJOR_CITIES.find? (fun q => q.1 == cityName)).map Prod.snd).getD 0

/-- The synchronous prefix of `fetchCityData`, up to the `await`:
sets `loading := true` and clears the error banner. -/
def fetchCityDataStart (s : AppState) : AppState :=
  { s with loading := true, error := "" }

/-- The user-facing message chosen by the catch branch of `fetchCityData`
(`App.vue` toggle variant): a 404 surfaces the truthy `detail` body field,
else a generic no-data message naming the city; any other failure gets the
generic retry message. -/
def cityFetchErrorMessage (cityName : String) (res : FetchResult) : String :=
  match res with
  | .httpError status detail =>
      if status = 404 then
        match detail with
        | some d => if d ≠ "" then d else "No data found for " ++ cityName
        | none => "No data found for " ++ cityName
      else "Failed to load data for " ++ cityName ++ ". Please try again."
  | _ => "Failed to load data for " ++ cityName ++ ". Please try again."

/-- The continuation of `fetchCityData` after the `await` settles
(`App.vue` toggle variant). On success the payload becomes the chart data
and, when the response carries a truthy `station_name` and a city is
selected, the selected city object is mutated in place with the station
fields. On failure the error message is set and the chart data cleared.
Either way `loading` ends false. -/
def fetchCityDataComplete (s : AppState) (cityName : String)
    (res : FetchResult) : AppState :=
  match res with
  | .success p =>
      let s1 := { s with chartData := some p }
      let s2 :=
        match p.station_name, s1.selectedCity with
        | some sn, some c =>
            if sn ≠ "" then
              let c1 := { c with station_name := some sn,
                                 station_id := p.station_id }
              { s1 with selectedCity := some c1 }
            else s1
        | _, _ => s1
      { s2 with loading := false }
  | _ =>
      { s with error := cityFetchErrorMessage cityName res,
               chartData := none, loading := false }

/-- The synchronous prefix of `fetchAllCitiesData`: sets `loading`,
clears the error, and resets the selection and both period flags. -/
def fetchAllCitiesStart (s : AppState) : AppState :=
  { s with loading := true, error := "", selectedCity := none,
           showHistorical := false, showMonthly := false }

/-- The continuation of `fetchAllCitiesData` after the `await` settles:
on success the payload becomes the chart data; on any failure only the
error message is set — the previously rendered chart data is left as it
was. `loading` ends false. -/
def fetchAllCitiesComplete (s : AppState) (res : FetchResult) : AppState :=
  match res with
  | .success p => { s with chartData := some p, loading := false }
  | _ =>
      let msg := "Failed to load temperature data. Please try again later."
      { s with error := msg, loading := false }

/-- The data type the fetch helpers derive from the two period flags
(`showHistorical ? historical : showMonthly ? monthly : recent`). -/
def currentDataType (s : AppState) : Period :=
  if s.showHistorical then .historical
  else if s.showMonthly then .monthly
  else .recent

/-- `toggleDataType(dataType)`: a no-op without a selected city; otherwise
the flags are reassigned from `dataType` and a fetch is dispatched exactly
when a flag changed. Returns the state after the synchronous part of the
handler (including the dispatched fetch prefix) and the requested
endpoint, `none` when no fetch was dispatched. -/
def toggleDataType (s : AppState) (dataType : Period) :
    AppState × Option String :=
  match s.selectedCity with
  | none => (s, none)
  | some c =>
      let wasHistorical := s.showHistorical
      let wasMonthly := s.showMonthly
      let s1 := { s with showHistorical := dataType == Period.historical,
                         showMonthly := dataType == Period.monthly }
      if wasHistorical != s1.showHistorical
          || wasMonthly != s1.showMonthly then
        (fetchCityDataStart s1, some (cityEndpoint dataType c.name))
      else (s1, none)

/-- `handleCitySelect(city)` up to and including the dispatched fetch
prefix; returns the new state and the requested endpoint. -/
def handleCitySelect (s : AppState) (c : City) : AppState × String :=
  let s1 := { s with selectedCity := some c }
  (fetchCityDataStart s1, cityEndpoint (currentDataType s1) c.name)

/-- `selectMajorCity(cityName)`: selects a `{id, name}` shortcut object
and dispatches the fetch for the current data type. -/
def selectMajorCity (s : AppState) (cityName : String) :
    AppState × String :=
  handleCitySelect s { id := majorCityId cityName, name := cityName }

/-- `goBackToAllCities` up to and including the `fetchAllCitiesData`
prefix (the selection and flag resets of the handler are subsumed by the
resets `fetchAllCitiesData` performs itself). -/
def goBackToAllCities (s : AppState) : AppState × String :=
  (fetchAllCitiesStart
    { s with selectedCity := none, showHistorical := false,
             showMonthly := false },
   "/api/graph/cities")

/-- The reactive state of the `CitySearch.vue` component. -/
structure SearchState where
  searchTerm : String
  results : List City
  loading : Bool
  error : String
deriving DecidableEq, Repr

/-- The synchronous prefix of `searchCity`: a query that is falsy or
shorter than 2 characters is rejected locally with a validation message
and no request; otherwise the loading flag is set, the error cleared, and
the search request dispatched. Returns the new state and the requested
endpoint (`none` when rejected). -/
def searchCity (s : SearchState) : SearchState × Option String :=
  if s.searchTerm = "" || s.searchTerm.length < 2 then
    ({ s with error := "Please enter at least 2 characters" }, none)
  else
    ({ s with loading := true, error := "" },
     some ("/api/cities/search/" ++ s.searchTerm))

/-- The continuation of `searchCity` after the `await` settles: a success
stores the result list (and shows a no-match message when it is empty); a
failure shows the generic search error. `loading` ends false. -/
def searchCityComplete (s : SearchState)
    (res : Except Unit (List City)) : SearchState :=
  match res with
  | .ok cs =>
      let s1 := { s with results := cs }
      let s2 :=
        if cs.length = 0 then
          { s1 with error := "No matching cities found" }
        else s1
      { s2 with loading := false }
  | .error _ =>
      let msg := "Error searching for cities. Please try again."
      { s with error := msg, loading := false }

/-- `selectCity(city)` of `CitySearch.vue`: emits the selection and clears
the result list; the query text is untouched. -/
def selectCity (s : SearchState) (c : City) : SearchState × City :=
  ({ s with results := [] }, c)

/-- The reactive state of the simpler top-level view variant
(`src/unnamed/part_002`), which has no period toggle and no period flags. -/
structure AppStateB where
  chartData : Option Payload
  loading : Bool
  error : String
  selectedCity : Option City
deriving DecidableEq, Repr

/-- The initial values of the refs of the simpler variant. -/
def initialAppStateB : AppStateB :=
  { chartData := none, loading := true, error := "", selectedCity := none }

/-- The synchronous prefix of the simpler variant's `fetchCityData`. -/
def fetchCityDataStartB (s : AppStateB) : AppStateB :=
  { s with loading := true, error := "" }

/-- The continuation of the simpler variant's `fetchCityData`: a success
stores the payload (the selected city is never touched); any failure sets
the one generic message and clears the chart data. -/
def fetchCityDataCompleteB (s : AppStateB) (cityName : String)
    (res : FetchResult) : AppStateB :=
  match res with
  | .success p => { s with chartData := some p, loading := false }
  | _ =>
      let msg := "Failed to load data for " ++ cityName
          ++ ". Please try again."
      { s with error := msg, chartData := none, loading := false }

/-- The synchronous prefix of the simpler variant's `fetchAllCitiesData`. -/
def fetchAllCitiesStartB (s : AppStateB) : AppStateB :=
  { s with loading := true, error := "", selectedCity := none }

/-- The continuation of the simpler variant's `fetchAllCitiesData`:
identical catch behaviour to the toggle variant (chart data left as is). -/
def fetchAllCitiesCompleteB (s : AppStateB) (res : FetchResult) :
    AppStateB :=
  match res with
  | .success p => { s with chartData := some p, loading := false }
  | _ =>
      let msg := "Failed to load temperature data. Please try again later."
      { s with error := msg, loading := false }

/-- A user interaction together with the outcome of the fetch it
dispatches: selecting a search result, pressing a major-city shortcut,
returning to the all-cities view, or pressing a period-toggle button
(the latter exists only in the toggle variant). -/
inductive Event where
  | selectSearch (c : City) (res : FetchResult)
  | selectMajor (cityName : String) (res : FetchResult)
  | goBack (res : FetchResult)
  | togglePeriod (p : Period) (res : FetchResult)
deriving DecidableEq, Repr

/-- `e` uses the period toggle. -/
def Event.usesToggle : Event → Bool
  | .togglePeriod _ _ => true
  | _ => false

/-- One interaction of the toggle variant, run to completion of the fetch
it dispatches: returns the resulting state and the list of issued request
paths. -/
def stepA (s : AppState) (e : Event) : AppState × List String :=
  match e with
  | .selectSearch c res =>
      let d := handleCitySelect s c
      (fetchCityDataComplete d.1 c.name res, [d.2])
  | .selectMajor cityName res =>
      let d := selectMajorCity s cityName
      (fetchCityDataComplete d.1 cityName res, [d.2])
  | .goBack res =>
      let d := goBackToAllCities s
      (fetchAllCitiesComplete d.1 res, [d.2])
  | .togglePeriod p res =>
      let d := toggleDataType s p
      match d.2, s.selectedCity with
      | some req, some c => (fetchCityDataComplete d.1 c.name res, [req])
      | _, _ => (d.1, [])

/-- One interaction of the simpler variant. A period-toggle press has no
handler there and is a no-op. -/
def stepB (s : AppStateB) (e : Event) : AppStateB × List String :=
  match e with
  | .selectSearch c res =>
      let s1 := fetchCityDataStartB { s with selectedCity := some c }
      (fetchCityDataCompleteB s1 c.name res,
       ["/api/graph/city/" ++ c.name])
  | .selectMajor cityName res =>
      let c : City := { id := majorCityId cityName, name := cityName }
      let s1 := fetchCityDataStartB { s with selectedCity := some c }
      (fetchCityDataCompleteB s1 cityName res,
       ["/api/graph/city/" ++ cityName])
  | .goBack res =>
      let s1 := fetchAllCitiesStartB { s with selectedCity := none }
      (fetchAllCitiesCompleteB s1 res, ["/api/graph/cities"])
  | .togglePeriod _ _ => (s, [])

/-- Run the toggle variant over an interaction sequence, collecting the
issued request paths in order. -/
def runA (s : AppState) : List Event → AppState × List String
  | [] => (s, [])
  | e :: es =>
      let d := stepA s e
      let rest := runA d.1 es
      (rest.1, d.2 ++ rest.2)

/-- Run the simpler variant over an interaction sequence. -/
def runB (s : AppStateB) : List Event → AppStateB × List String
  | [] => (s, [])
  | e :: es =>
      let d := stepB s e
      let rest := runB d.1 es
      (rest.1, d.2 ++ rest.2)

/-- The fields of a `City` that existed when the value was produced by
search or by the major-city shortcut (everything except the station
annotations the toggle variant may attach later). -/
def cityCore (c : City) : Nat × String × Option ℚ × Option ℚ :=
  (c.id, c.name, c.latitude, c.longitude)

/-- The correspondence between a toggle-variant state and a
simpler-variant state used to compare toggle-free runs: both period flags
are off and the selections agree on the search-produced fields. -/
def varRel (a : AppState) (b : AppStateB) : Prop :=
  a.showHistorical = false ∧ a.showMonthly = false ∧
    Option.map cityCore a.selectedCity = Option.map cityCore b.selectedCity

instance (a : AppState) (b : AppStateB) : Decidable (varRel a b) := by
  unfold varRel
  infer_instance

/-- A search-produced city used in concrete runs. -/
def exampleCity : City := { id := 97400, name := "Stockholm" }

/-- A toggle-variant state with `exampleCity` selected. -/
def exampleSelState : AppState :=
  { initialAppState with selectedCity := some exampleCity }

/-- A single-city payload whose response carries a station name that
differs from the requested city name. -/
def exampleStationPayload : Payload :=
  { months := ["Jan"], city := some "Stockholm",
    temperatures := some [some 1],
    station_name := some "Stockholm A", station_id := some 5 }

/-- A multi-city payload with an average series. -/
def exampleMultiPayload : Payload :=
  { months := ["Jan", "Feb"],
    cities := some [("Stockholm", [some 1, none]), ("Umeå", [none, some 2])],
    average := some [some 3, some 4] }

/-- A payload with more than 30 month labels and no `historical` period. -/
def exampleLongPayload : Payload :=
  { months := List.replicate 31 "m",
    cities := some [("Stockholm", List.replicate 31 none)] }

/-- A stale payload sitting in `chartData` when a fetch fails. -/
def exampleStalePayload : Payload := { months := ["Jan"] }

/-- One concrete random-colour stream. -/
def exampleRandOne : Nat → Color := fun k => ⟨k % 256, 0, 0⟩

/-- A second, different random-colour stream. -/
def exampleRandTwo : Nat → Color := fun _ => ⟨7, 7, 7⟩

/-- A search state holding a one-character query. -/
def exampleSearchState : SearchState :=
  { searchTerm := "a", results := [], loading := false, error := "" }

/-- A payload carrying both the multi-city and the single-city fields. -/
def exampleMixedPayload : Payload :=
  { months := ["Jan"],
    cities := some [("Stockholm", [some 1])],
    city := some "Ghost", temperatures := some [some 9] }

/-- A toggle-variant state currently rendering a chart. -/
def exampleStaleState : AppState :=
  { initialAppState with chartData := some exampleStalePayload }

/-- The one-interaction trace that separates the two view variants. -/
def exampleTrace : List Event :=
  [Event.selectMajor "Stockholm" (.success exampleStationPayload)]

/-- A toggle-free two-interaction trace on which the variants agree. -/
def exampleAgreeTrace : List Event :=
  [Event.selectMajor "Göteborg" (.success exampleStalePayload),
   Event.goBack .networkError]

theorem getCityColor_hit (rand : Nat → Color) (n : String) (k : Nat)
    (c : Color) (h : findColor n = some c) :
    getCityColor rand n k = (c, k) := by
  simp [getCityColor, h]

theorem cityDatasets_labels (rand : Nat → Color) :
    ∀ (m : List (String × List Temp)) (k : Nat),
      ((cityDatasets rand m k).1).map Dataset.label = m.map Prod.fst := by
  intro m
  induction m with
  | nil => intro k; rfl
  | cons q rest ih =>
      intro k
      obtain ⟨n, ts⟩ := q
      simp [cityDatasets, ih]

theorem cityDatasets_length (rand : Nat → Color) :
    ∀ (m : List (String × List Temp)) (k : Nat),
      ((cityDatasets rand m k).1).length = m.length := by
  intro m
  induction m with
  | nil => intro k; rfl
  | cons q rest ih =>
      intro k
      obtain ⟨n, ts⟩ := q
      simp [cityDatasets, ih]

theorem cityDatasets_palette (rand rand' : Nat → Color) :
    ∀ (m : List (String × List Temp)) (k : Nat),
      (∀ n ∈ m.map Prod.fst, (findColor n).isSome = true) →
      cityDatasets rand m k = cityDatasets rand' m k := by
  intro m
  induction m with
  | nil => intro k _; rfl
  | cons q rest ih =>
      intro k h
      obtain ⟨n, ts⟩ := q
      have hn : (findColor n).isSome = true := h n (by simp)
      obtain ⟨c, hc⟩ := Option.isSome_iff_exists.mp hn
      have hrest : ∀ x ∈ rest.map Prod.fst, (findColor x).isSome = true := by
        intro x hx
        exact h x (by simp [hx])
      simp [cityDatasets, getCityColor_hit _ _ _ _ hc, ih k hrest]

theorem cityDatasets_color_at (rand : Nat → Color) :
    ∀ (m : List (String × List Temp)) (k i : Nat) (him : i < m.length)
      (c : Color),
      findColor (m.get ⟨i, him⟩).1 = some c →
      ((cityDatasets rand m k).1)[i]? =
        some { label := (m.get ⟨i, him⟩).1, data := (m.get ⟨i, him⟩).2,
               borderColor := c, backgroundColor := c,
               borderWidth := none, pointRadius := 3 } := by
  intro m
  induction m with
  | nil => intro k i him; exact absurd him (by simp)
  | cons q rest ih =>
      intro k i him c hc
      obtain ⟨n, ts⟩ := q
      cases i with
      | zero =>
          simp at hc
          simp [cityDatasets, getCityColor_hit _ _ _ _ hc]
      | succ j =>
          have hj : j < rest.length := by
            simpa using him
          simp only [List.get_cons_succ] at hc
          simp only [cityDatasets]
          simpa using ih _ j hj c hc

theorem createChart_datasets (rand : Nat → Color) (p : Payload)
    (t : String) (m : List (String × List Temp)) (h : p.cities = some m) :
    (createChart rand p t).datasets =
      (cityDatasets rand m 0).1 ++
        (match p.average with
         | some a => [averageDataset a]
         | none => []) := by
  obtain ⟨mo, ci, cy, te, av, sn, si, pe, tr⟩ := p
  simp only [Payload.cities] at h
  subst h
  cases av <;> simp [createChart, baseDatasets]

theorem createChart_xTicks (rand : Nat → Color) (p : Payload)
    (t : String) : (createChart rand p t).xTicks = xTicksOf p := rfl

theorem createChart_titleText (rand : Nat → Color) (p : Payload)
    (t : String) : (createChart rand p t).titleText = titleTextOf p t := rfl

theorem createChart_xAxisTitle (rand : Nat → Color) (p : Payload)
    (t : String) : (createChart rand p t).xAxisTitle = xAxisTitleOf p := rfl

theorem append_ne_empty_left (s t : String) (h : s ≠ "") :
    s ++ t ≠ "" := by
  intro contra
  apply h
  have hd := congrArg String.data contra
  simp only [String.data_append] at hd
  rcases List.append_eq_nil.mp hd with ⟨h1, _⟩
  cases s with
  | mk l =>
      simp only [String.data] at h1
      simp [h1]

theorem cityFetchErrorMessage_ne_empty (n : String) (res : FetchResult)
    (h : res.isFailure = true) : cityFetchErrorMessage n res ≠ "" := by
  cases res with
  | success p => simp [FetchResult.isFailure] at h
  | networkError =>
      exact append_ne_empty_left _ _
        (append_ne_empty_left _ _ (by decide))
  | httpError status detail =>
      simp only [cityFetchErrorMessage]
      split
      · cases detail with
        | none => exact append_ne_empty_left _ _ (by decide)
        | some d =>
            simp only
            split
            · assumption
            · exact append_ne_empty_left _ _ (by decide)
      · exact append_ne_empty_left _ _
          (append_ne_empty_left _ _ (by decide))

theorem fetchCityDataComplete_failure (s : AppState) (n : String)
    (res : FetchResult) (h : res.isFailure = true) :
    fetchCityDataComplete s n res =
      { s with error := cityFetchErrorMessage n res,
               chartData := none, loading := false } := by
  cases res with
  | success p => simp [FetchResult.isFailure] at h
  | httpError status detail => rfl
  | networkError => rfl

theorem fetchCityDataComplete_core (s : AppState) (n : String)
    (res : FetchResult) :
    Option.map cityCore (fetchCityDataComplete s n res).selectedCity =
      Option.map cityCore s.selectedCity := by
  cases res with
  | httpError status detail => rfl
  | networkError => rfl
  | success p =>
      cases hs : p.station_name with
      | none => simp [fetchCityDataComplete, hs]
      | some sn =>
          cases hsel : s.selectedCity with
          | none => simp [fetchCityDataComplete, hs, hsel]
          | some c =>
              by_cases hne : sn = ""
              · simp [fetchCityDataComplete, hs, hsel, hne]
              · simp [fetchCityDataComplete, hs, hsel, hne, cityCore]

theorem fetchCityDataComplete_flags (s : AppState) (n : String)
    (res : FetchResult) :
    (fetchCityDataComplete s n res).showHistorical = s.showHistorical ∧
      (fetchCityDataComplete s n res).showMonthly = s.showMonthly := by
  cases res with
  | httpError status detail => exact ⟨rfl, rfl⟩
  | networkError => exact ⟨rfl, rfl⟩
  | success p =>
      cases hs : p.station_name with
      | none => simp [fetchCityDataComplete, hs]
      | some sn =>
          cases hsel : s.selectedCity with
          | none => simp [fetchCityDataComplete, hs, hsel]
          | some c =>
              by_cases hne : sn = ""
              · simp [fetchCityDataComplete, hs, hsel, hne]
              · simp [fetchCityDataComplete, hs, hsel, hne]

theorem fetchCityDataComplete_station_none (s : AppState) (n : String)
    (p : Payload) (h : p.station_name = none) :
    fetchCityDataComplete s n (.success p) =
      { s with chartData := some p, loading := false } := by
  simp [fetchCityDataComplete, h]

theorem fetchCityDataCompleteB_selected (s : AppStateB) (n : String)
    (res : FetchResult) :
    (fetchCityDataCompleteB s n res).selectedCity = s.selectedCity := by
  cases res <;> rfl

theorem fetchAllCitiesComplete_selected (s : AppState) (res : FetchResult) :
    (fetchAllCitiesComplete s res).selectedCity = s.selectedCity := by
  cases res <;> rfl

theorem toggleDataType_selected (s : AppState) (p : Period) :
    (toggleDataType s p).1.selectedCity = s.selectedCity := by
  cases hsel : s.selectedCity with
  | none => simp [toggleDataType, hsel]
  | some c =>
      simp only [toggleDataType, hsel]
      split
      · simp [fetchCityDataStart, hsel]
      · simp [hsel]

theorem stepA_selectSearch_requests (a : AppState) (c : City)
    (res : FetchResult) (h1 : a.showHistorical = false)
    (h2 : a.showMonthly = false) :
    (stepA a (.selectSearch c res)).2 = ["/api/graph/city/" ++ c.name] := by
  simp [stepA, handleCitySelect, currentDataType, h1, h2, cityEndpoint]

theorem step_noToggle (e : Event) (he : e.usesToggle = false)
    (a : AppState) (b : AppStateB) (h : varRel a b) :
    (stepA a e).2 = (stepB b e).2 ∧
      varRel (stepA a e).1 (stepB b e).1 := by
  obtain ⟨h1, h2, h3⟩ := h
  cases e with
  | togglePeriod p res => simp [Event.usesToggle] at he
  | selectSearch c res =>
      constructor
      · rw [stepA_selectSearch_requests a c res h1 h2]
        rfl
      · refine ⟨?_, ?_, ?_⟩
        · simp [stepA, stepB, handleCitySelect, fetchCityDataStart,
                (fetchCityDataComplete_flags _ _ _).1, h1]
        · simp [stepA, stepB, handleCitySelect, fetchCityDataStart,
                (fetchCityDataComplete_flags _ _ _).2, h2]
        · simp only [stepA, stepB]
          rw [fetchCityDataComplete_core, fetchCityDataCompleteB_selected]
          simp [handleCitySelect, fetchCityDataStart, fetchCityDataStartB]
  | selectMajor n res =>
      constructor
      · simp [stepA, stepB, selectMajorCity, handleCitySelect,
              currentDataType, h1, h2, cityEndpoint]
      · refine ⟨?_, ?_, ?_⟩
        · simp [stepA, stepB, selectMajorCity, handleCitySelect,
                fetchCityDataStart,
                (fetchCityDataComplete_flags _ _ _).1, h1]
        · simp [stepA, stepB, selectMajorCity, handleCitySelect,
                fetchCityDataStart,
                (fetchCityDataComplete_flags _ _ _).2, h2]
        · simp only [stepA, stepB]
          rw [fetchCityDataComplete_core, fetchCityDataCompleteB_selected]
          simp [selectMajorCity, handleCitySelect, fetchCityDataStart,
                fetchCityDataStartB]
  | goBack res =>
      constructor
      · rfl
      · cases res with
        | success p =>
            refine ⟨rfl, rfl, ?_⟩
            simp [stepA, stepB, goBackToAllCities, fetchAllCitiesStart,
                  fetchAllCitiesStartB, fetchAllCitiesComplete,
                  fetchAllCitiesCompleteB]
        | httpError status detail =>
            refine ⟨rfl, rfl, ?_⟩
            simp [stepA, stepB, goBackToAllCities, fetchAllCitiesStart,
                  fetchAllCitiesStartB, fetchAllCitiesComplete,
                  fetchAllCitiesCompleteB]
        | networkError =>
            refine ⟨rfl, rfl, ?_⟩
            simp [stepA, stepB, goBackToAllCities, fetchAllCitiesStart,
                  fetchAllCitiesStartB, fetchAllCitiesComplete,
                  fetchAllCitiesCompleteB]

/-- C2 (counterexample): a payload with 31 month labels whose `period` is
not `historical` is composed with no tick policy, refuting the claim that
the `{maxTicks: 20, rotationDegrees: 45}` policy is applied exactly when
the number of labels exceeds 30. -/
theorem claim_C2_counterexample :
    (createChart exampleRandOne exampleLongPayload "T").xTicks = none ∧
      30 < exampleLongPayload.months.length := by
  constructor
  · rfl
  · decide

/-- C2 (amended): the composed tick policy is `{maxTicksLimit 20,
rotation 45}` exactly when the payload period is `historical`, a
`time_range` is present, and the number of month labels exceeds 30; in
every other case it is `none`. -/
theorem claim_C2_amended (rand : Nat → Color) (p : Payload) (t : String) :
    (createChart rand p t).xTicks =
      if p.period = some "historical" ∧ p.time_range.isSome = true ∧
          30 < p.months.length
      then some ⟨20, 45, 45⟩ else none := by
  rw [createChart_xTicks, xTicksOf]
  by_cases h1 : p.period = some "historical" <;>
    cases h2 : p.time_range.isSome <;>
      by_cases h3 : 30 < p.months.length <;>
        simp [h1, h2, h3]

/-- C5: for a multi-city payload the composed specification has exactly
one dataset per key of the `cities` mapping, in iteration order and
labelled with the city name; exactly one further dataset exists iff
`average` is present, and it is labelled Average, has the fixed neutral
colour, a heavier border, and is positioned last. -/
theorem claim_C5 (rand : Nat → Color) (p : Payload) (t : String)
    (m : List (String × List Temp)) (h : p.cities = some m) :
    ((createChart rand p t).datasets.map Dataset.label =
        m.map Prod.fst ++
          (match p.average with
           | some _ => ["Average"]
           | none => [])) ∧
    (∀ a, p.average = some a →
      (createChart rand p t).datasets =
          (cityDatasets rand m 0).1 ++ [averageDataset a] ∧
        (averageDataset a).label = "Average" ∧
        (averageDataset a).borderColor = ⟨0, 0, 0⟩ ∧
        (averageDataset a).borderWidth = some 3 ∧
        (averageDataset a).pointRadius = 4) ∧
    (p.average = none →
      (createChart rand p t).datasets = (cityDatasets rand m 0).1) ∧
    ((cityDatasets rand m 0).1.map Dataset.label = m.map Prod.fst) := by
  refine ⟨?_, ?_, ?_, cityDatasets_labels rand m 0⟩
  · rw [createChart_datasets rand p t m h]
    cases hav : p.average <;>
      simp [cityDatasets_labels, averageDataset]
  · intro a hav
    rw [createChart_datasets rand p t m h, hav]
    exact ⟨rfl, rfl, rfl, rfl, rfl⟩
  · intro hav
    rw [createChart_datasets rand p t m h, hav]
    simp

/-- C5 (witness): the theorem applied to a concrete two-city payload with
an average series. -/
theorem claim_C5_witness :
    exampleMultiPayload.cities =
        some [("Stockholm", [some 1, none]), ("Umeå", [none, some 2])] ∧
      exampleMultiPayload.average = some [some 3, some 4] ∧
      (createChart exampleRandOne exampleMultiPayload "T").datasets.map
          Dataset.label = ["Stockholm", "Umeå", "Average"] := by
  refine ⟨rfl, rfl, ?_⟩
  have h := (claim_C5 exampleRandOne exampleMultiPayload "T"
    [("Stockholm", [some 1, none]), ("Umeå", [none, some 2])] rfl).1
  rw [h]
  rfl

/-- C10: when a payload carries both a `cities` mapping and a
`temperatures` sequence, composition takes the multi-city branch: the
specification is identical to that of the payload with `temperatures`
and `city` removed, and its datasets come from the `cities` keys alone
(plus the optional Average dataset). -/
theorem claim_C10 (rand : Nat → Color) (p : Payload) (t : String)
    (m : List (String × List Temp)) (ts : List Temp)
    (h1 : p.cities = some m) (h2 : p.temperatures = some ts) :
    createChart rand p t =
        createChart rand { p with temperatures := none, city := none } t ∧
      (createChart rand p t).datasets.map Dataset.label =
        m.map Prod.fst ++
          (match p.average with
           | some _ => ["Average"]
           | none => []) := by
  obtain ⟨mo, ci, cy, te, av, sn, si, pe, tr⟩ := p
  simp only [Payload.cities] at h1
  simp only [Payload.temperatures] at h2
  subst h1
  subst h2
  constructor
  · rfl
  · rw [createChart_datasets _ _ _ m rfl]
    cases av <;> simp [cityDatasets_labels, averageDataset]

/-- C10 (witness): the theorem applied to a payload carrying both shapes:
the `city`/`temperatures` fields contribute nothing. -/
theorem claim_C10_witness :
    exampleMixedPayload.cities = some [("Stockholm", [some 1])] ∧
      exampleMixedPayload.temperatures = some [some 9] ∧
      createChart exampleRandOne exampleMixedPayload "T" =
        createChart exampleRandOne
          { exampleMixedPayload with temperatures := none, city := none }
          "T" := by
  refine ⟨rfl, rfl, ?_⟩
  exact (claim_C10 exampleRandOne exampleMixedPayload "T"
    [("Stockholm", [some 1])] [some 9] rfl rfl).1

/-- C4: on a single-city fetch failing with HTTP 404, the surfaced error
equals the backend `detail` string when the body carries a (truthy) one
and otherwise the generic no-data message naming the city; every other
failure (other statuses, or no response at all) surfaces the one generic
retry message naming the city, independent of the failure detail. -/
theorem claim_C4 (s : AppState) (n : String) :
    (∀ d, d ≠ "" →
      (fetchCityDataComplete s n (.httpError 404 (some d))).error = d) ∧
    ((fetchCityDataComplete s n (.httpError 404 none)).error =
      "No data found for " ++ n) ∧
    (∀ status detail, status ≠ 404 →
      (fetchCityDataComplete s n (.httpError status detail)).error =
        "Failed to load data for " ++ n ++ ". Please try again.") ∧
    ((fetchCityDataComplete s n .networkError).error =
      "Failed to load data for " ++ n ++ ". Please try again.") := by
  refine ⟨?_, ?_, ?_, ?_⟩
  · intro d hd
    simp [fetchCityDataComplete, cityFetchErrorMessage, hd]
  · rfl
  · intro status detail hst
    simp [fetchCityDataComplete, cityFetchErrorMessage, hst]
  · rfl

/-- C4 (witness): the theorem applied at a concrete city and failures:
a 404 with `detail: "No station data for Lund"` surfaces that string, a
500 surfaces the generic message. -/
theorem claim_C4_witness :
    ("No station data for Lund" : String) ≠ "" ∧
      (500 : Nat) ≠ 404 ∧
      (fetchCityDataComplete initialAppState "Lund"
          (.httpError 404 (some "No station data for Lund"))).error =
        "No station data for Lund" ∧
      (fetchCityDataComplete initialAppState "Lund"
          (.httpError 500 none)).error =
        "Failed to load data for Lund. Please try again." := by
  refine ⟨by decide, by decide, ?_, ?_⟩
  · exact (claim_C4 initialAppState "Lund").1
      "No station data for Lund" (by decide)
  · have h := (claim_C4 initialAppState "Lund").2.2.1 500 none (by decide)
    rw [h]
    rfl

/-- C8: a search whose query is shorter than 2 characters is rejected
locally: the validation message is set, no request is dispatched, and the
result list is untouched; a request is dispatched only for queries of
length at least 2. -/
theorem claim_C8 (s : SearchState) (h : s.searchTerm.length < 2) :
    searchCity s =
        ({ s with error := "Please enter at least 2 characters" }, none) ∧
      (searchCity s).1.results = s.results ∧
      (∀ s2 : SearchState, ((searchCity s2).2).isSome = true →
        2 ≤ s2.searchTerm.length) := by
  have hcond : (s.searchTerm = "" || decide (s.searchTerm.length < 2)) =
      true := by
    simp [h]
  refine ⟨?_, ?_, ?_⟩
  · simp [searchCity, h]
  · simp [searchCity, h]
  · intro s2 h2
    by_contra hlt
    push_neg at hlt
    simp [searchCity, hlt] at h2

/-- C8 (witness): the theorem applied to a one-character query. -/
theorem claim_C8_witness :
    exampleSearchState.searchTerm.length < 2 ∧
      searchCity exampleSearchState =
        ({ exampleSearchState with
            error := "Please enter at least 2 characters" }, none) := by
  refine ⟨by decide, ?_⟩
  exact (claim_C8 exampleSearchState (by decide)).1

/-- C1 (counterexample): when the all-cities fetch fails, the previously
rendered chart data is NOT cleared — it keeps the stale payload — even
though the loading flag is cleared and an error is surfaced. -/
theorem claim_C1_counterexample :
    (fetchAllCitiesComplete exampleStaleState .networkError).chartData =
        some exampleStalePayload ∧
      (fetchAllCitiesComplete exampleStaleState .networkError).chartData ≠
        none ∧
      (fetchAllCitiesComplete exampleStaleState .networkError).loading =
        false ∧
      (fetchAllCitiesComplete exampleStaleState .networkError).error =
        "Failed to load temperature data. Please try again later." := by
  refine ⟨rfl, by simp [fetchAllCitiesComplete, exampleStaleState,
    exampleStalePayload], rfl, rfl⟩

/-- C1 (amended): a failing single-city fetch clears the chart data, sets
the loading flag false and surfaces a nonempty error; a failing all-cities
fetch sets the loading flag false and surfaces the generic error but
leaves the previously rendered chart data unchanged. -/
theorem claim_C1_amended :
    (∀ (s : AppState) (n : String) (res : FetchResult),
      res.isFailure = true →
        (fetchCityDataComplete s n res).chartData = none ∧
        (fetchCityDataComplete s n res).loading = false ∧
        (fetchCityDataComplete s n res).error ≠ "") ∧
    (∀ (s : AppState) (res : FetchResult),
      res.isFailure = true →
        (fetchAllCitiesComplete s res).chartData = s.chartData ∧
        (fetchAllCitiesComplete s res).loading = false ∧
        (fetchAllCitiesComplete s res).error =
          "Failed to load temperature data. Please try again later.") := by
  constructor
  · intro s n res h
    rw [fetchCityDataComplete_failure s n res h]
    exact ⟨rfl, rfl, cityFetchErrorMessage_ne_empty n res h⟩
  · intro s res h
    cases res with
    | success p => simp [FetchResult.isFailure] at h
    | httpError status detail => exact ⟨rfl, rfl, rfl⟩
    | networkError => exact ⟨rfl, rfl, rfl⟩

/-- C1 (witness): the amended theorem applied at a concrete state holding
a stale chart, for a 404 single-city failure and an all-cities network
failure. -/
theorem claim_C1_witness :
    (FetchResult.httpError 404 none).isFailure = true ∧
      FetchResult.networkError.isFailure = true ∧
      (fetchCityDataComplete exampleStaleState "Lund"
          (.httpError 404 none)).chartData = none ∧
      (fetchAllCitiesComplete exampleStaleState .networkError).chartData =
        exampleStaleState.chartData := by
  refine ⟨by decide, by decide, ?_, ?_⟩
  · exact (claim_C1_amended.1 exampleStaleState "Lund"
      (.httpError 404 none) (by decide)).1
  · exact (claim_C1_amended.2 exampleStaleState .networkError
      (by decide)).1

/-- C3 (counterexample): completing a single-city fetch whose response
carries a `station_name` mutates the selected `City` object in place —
its `station_name` and `station_id` fields are overwritten — refuting the
claim that a `City` is never modified after it is produced. -/
theorem claim_C3_counterexample :
    exampleSelState.selectedCity = some exampleCity ∧
      (fetchCityDataComplete exampleSelState "Stockholm"
          (.success exampleStationPayload)).selectedCity =
        some { exampleCity with station_name := some "Stockholm A",
                                station_id := some 5 } ∧
      (fetchCityDataComplete exampleSelState "Stockholm"
          (.success exampleStationPayload)).selectedCity ≠
        some exampleCity := by
  refine ⟨rfl, rfl, by decide⟩

/-- C3 (amended): the search-produced fields of a `City` (id, name,
latitude, longitude) are never modified by any client operation; the one
exception to full immutability is the single-city fetch completion, which
sets the `station_name`/`station_id` annotations on the selected city
when the response carries a truthy station name. When the response has no
`station_name`, even that operation leaves the selection untouched, and
selection, period change, all-cities completion and result selection
never touch the city at all. -/
theorem claim_C3_amended :
    (∀ (s : AppState) (n : String) (res : FetchResult),
      Option.map cityCore (fetchCityDataComplete s n res).selectedCity =
        Option.map cityCore s.selectedCity) ∧
    (∀ (s : AppState) (n : String) (p : Payload),
      p.station_name = none →
        (fetchCityDataComplete s n (.success p)).selectedCity =
          s.selectedCity) ∧
    (∀ (s : AppState) (p : Period),
      (toggleDataType s p).1.selectedCity = s.selectedCity) ∧
    (∀ (s : AppState) (res : FetchResult),
      (fetchAllCitiesComplete s res).selectedCity = s.selectedCity) ∧
    (∀ s : AppState,
      (fetchCityDataStart s).selectedCity = s.selectedCity) ∧
    (∀ (s : SearchState) (c : City), (selectCity s c).2 = c) := by
  refine ⟨fetchCityDataComplete_core, ?_, toggleDataType_selected,
    fetchAllCitiesComplete_selected, fun s => rfl, fun s c => rfl⟩
  intro s n p h
  rw [fetchCityDataComplete_station_none s n p h]

/-- C3 (witness): the amended theorem applied at concrete inputs: a
response without a station name leaves the selection untouched, and even
the mutating response preserves the search-produced fields. -/
theorem claim_C3_witness :
    exampleStalePayload.station_name = none ∧
      (fetchCityDataComplete exampleSelState "Stockholm"
          (.success exampleStalePayload)).selectedCity =
        exampleSelState.selectedCity ∧
      Option.map cityCore
          (fetchCityDataComplete exampleSelState "Stockholm"
            (.success exampleStationPayload)).selectedCity =
        Option.map cityCore exampleSelState.selectedCity := by
  refine ⟨rfl, ?_, ?_⟩
  · exact claim_C3_amended.2.1 exampleSelState "Stockholm"
      exampleStalePayload rfl
  · exact claim_C3_amended.1 exampleSelState "Stockholm"
      (.success exampleStationPayload)

/-- C6: `toggleDataType(p)` is a no-op (state unchanged, no fetch) when no
city is selected or when `p` equals the current period; otherwise the
period becomes `p`, the selected city is preserved, and exactly one fetch
is dispatched to the endpoint determined by the selected city and `p`
(`/api/graph/historical/{name}`, `/api/graph/monthly/{name}` or
`/api/graph/city/{name}`). The hypothesis excludes the unreachable state
with both period flags set. -/
theorem claim_C6 (s : AppState) (p : Period)
    (hinv : ¬(s.showHistorical = true ∧ s.showMonthly = true)) :
    (s.selectedCity = none → toggleDataType s p = (s, none)) ∧
    (∀ c, s.selectedCity = some c → p = currentDataType s →
      toggleDataType s p = (s, none)) ∧
    (∀ c, s.selectedCity = some c → p ≠ currentDataType s →
      (toggleDataType s p).1.selectedCity = some c ∧
        currentDataType (toggleDataType s p).1 = p ∧
        (toggleDataType s p).2 = some (cityEndpoint p c.name)) ∧
    (∀ n : String,
      cityEndpoint .historical n = "/api/graph/historical/" ++ n ∧
        cityEndpoint .monthly n = "/api/graph/monthly/" ++ n ∧
        cityEndpoint .recent n = "/api/graph/city/" ++ n) := by
  obtain ⟨cd, lo, er, sc, sh, sm⟩ := s
  refine ⟨?_, ?_, ?_, fun n => ⟨rfl, rfl, rfl⟩⟩
  · intro h
    subst h
    rfl
  · intro c hc hp
    subst hc
    cases p <;> cases sh <;> cases sm
    case recent.false.false => rfl
    case recent.false.true => exact nomatch hp
    case recent.true.false => exact nomatch hp
    case recent.true.true => exact absurd ⟨rfl, rfl⟩ hinv
    case monthly.false.false => exact nomatch hp
    case monthly.false.true => rfl
    case monthly.true.false => exact nomatch hp
    case monthly.true.true => exact absurd ⟨rfl, rfl⟩ hinv
    case historical.false.false => exact nomatch hp
    case historical.false.true => exact nomatch hp
    case historical.true.false => rfl
    case historical.true.true => exact absurd ⟨rfl, rfl⟩ hinv
  · intro c hc hp
    subst hc
    cases p <;> cases sh <;> cases sm
    case recent.false.false => exact absurd rfl hp
    case recent.false.true => exact ⟨rfl, rfl, rfl⟩
    case recent.true.false => exact ⟨rfl, rfl, rfl⟩
    case recent.true.true => exact absurd ⟨rfl, rfl⟩ hinv
    case monthly.false.false => exact ⟨rfl, rfl, rfl⟩
    case monthly.false.true => exact absurd rfl hp
    case monthly.true.false => exact ⟨rfl, rfl, rfl⟩
    case monthly.true.true => exact absurd ⟨rfl, rfl⟩ hinv
    case historical.false.false => exact ⟨rfl, rfl, rfl⟩
    case historical.false.true => exact ⟨rfl, rfl, rfl⟩
    case historical.true.false => exact absurd rfl hp
    case historical.true.true => exact absurd ⟨rfl, rfl⟩ hinv

/-- C6 (witness): the theorem applied at a concrete selected state with
both flags off: switching to monthly dispatches exactly the monthly
endpoint for the selected city, and re-selecting recent is a no-op. -/
theorem claim_C6_witness :
    ¬(exampleSelState.showHistorical = true ∧
        exampleSelState.showMonthly = true) ∧
      exampleSelState.selectedCity = some exampleCity ∧
      Period.monthly ≠ currentDataType exampleSelState ∧
      Period.recent = currentDataType exampleSelState ∧
      (toggleDataType exampleSelState .monthly).2 =
        some "/api/graph/monthly/Stockholm" ∧
      toggleDataType exampleSelState .recent = (exampleSelState, none) := by
  refine ⟨by decide, rfl, by decide, by decide, ?_, ?_⟩
  · have h := ((claim_C6 exampleSelState .monthly (by decide)).2.2.1
      exampleCity rfl (by decide)).2.2
    rw [h]
    rfl
  · exact (claim_C6 exampleSelState .recent (by decide)).2.1
      exampleCity rfl (by decide)

theorem baseDatasets_palette (rand rand' : Nat → Color) (p : Payload)
    (h : ∀ n ∈ payloadColorNames p, (findColor n).isSome = true) :
    baseDatasets rand p = baseDatasets rand' p := by
  cases hc : p.cities with
  | some m =>
      have hm : ∀ n ∈ m.map Prod.fst, (findColor n).isSome = true := by
        intro n hn
        apply h
        simp [payloadColorNames, hc, hn]
      simp [baseDatasets, hc, cityDatasets_palette rand rand' m 0 hm]
  | none =>
      cases ht : p.temperatures with
      | none => simp [baseDatasets, hc, ht]
      | some ts =>
          have hn : (findColor (p.city.getD "undefined")).isSome = true := by
            apply h
            simp [payloadColorNames, hc, ht]
          obtain ⟨c, hcc⟩ := Option.isSome_iff_exists.mp hn
          simp [baseDatasets, hc, ht, getCityColor_hit _ _ _ _ hcc]

theorem createChart_palette_congr (rand rand' : Nat → Color)
    (p : Payload) (t : String)
    (h : ∀ n ∈ payloadColorNames p, (findColor n).isSome = true) :
    createChart rand p t = createChart rand' p t := by
  simp [createChart, baseDatasets_palette rand rand' p h]

/-- C7: chart composition is deterministic on palette-covered inputs.
Each of the six palette names is assigned its fixed colour by
`getCityColor` regardless of the random stream and of the draw counter;
a palette-hit entry of a multi-city payload gets that fixed colour at its
position, and a palette-hit single-city payload gets it as well (even
when the label is augmented with a station name); and two compositions of
the same payload and title under different random streams are identical
whenever every dataset name hits the fixed palette. -/
theorem claim_C7 (rand rand' : Nat → Color) (p : Payload) (t : String) :
    ((∀ n ∈ payloadColorNames p, (findColor n).isSome = true) →
      createChart rand p t = createChart rand' p t) ∧
    (∀ k, getCityColor rand "Stockholm" k = (⟨54, 162, 235⟩, k)) ∧
    (∀ k, getCityColor rand "Göteborg" k = (⟨255, 99, 132⟩, k)) ∧
    (∀ k, getCityColor rand "Malmö" k = (⟨75, 192, 192⟩, k)) ∧
    (∀ k, getCityColor rand "Uppsala" k = (⟨255, 159, 64⟩, k)) ∧
    (∀ k, getCityColor rand "Umeå" k = (⟨153, 102, 255⟩, k)) ∧
    (∀ k, getCityColor rand "Average" k = (⟨0, 0, 0⟩, k)) ∧
    (∀ (m : List (String × List Temp)) (i : Nat) (him : i < m.length)
       (c : Color), p.cities = some m →
      findColor (m.get ⟨i, him⟩).1 = some c →
      ((createChart rand p t).datasets)[i]? =
        some { label := (m.get ⟨i, him⟩).1, data := (m.get ⟨i, him⟩).2,
               borderColor := c, backgroundColor := c,
               borderWidth := none, pointRadius := 3 }) ∧
    (∀ (n : String) (c : Color) (ts : List Temp),
      p.cities = none → p.temperatures = some ts → p.city = some n →
      findColor n = some c →
      ((createChart rand p t).datasets).head? =
        some { label := singleCityLabel n p.station_name, data := ts,
               borderColor := c, backgroundColor := c,
               borderWidth := none, pointRadius := 3 }) := by
  refine ⟨createChart_palette_congr rand rand' p t,
    fun k => rfl, fun k => rfl, fun k => rfl, fun k => rfl,
    fun k => rfl, fun k => rfl, ?_, ?_⟩
  · intro m i him c hcit hcol
    rw [createChart_datasets rand p t m hcit]
    have hlen : i < ((cityDatasets rand m 0).1).length := by
      rw [cityDatasets_length]
      exact him
    rw [List.getElem?_append_left hlen]
    exact cityDatasets_color_at rand m 0 i him c hcol
  · intro n c ts hc ht hcity hcol
    cases hav : p.average <;>
      simp [createChart, baseDatasets, hc, ht, hcity, hav,
        getCityColor_hit _ _ _ _ hcol]

/-- C7 (witness): the determinism conjunct applied to a concrete
palette-covered two-city payload under two different random streams. -/
theorem claim_C7_witness :
    (∀ n ∈ payloadColorNames exampleMultiPayload,
        (findColor n).isSome = true) ∧
      createChart exampleRandOne exampleMultiPayload "T" =
        createChart exampleRandTwo exampleMultiPayload "T" := by
  refine ⟨by decide, ?_⟩
  exact (claim_C7 exampleRandOne exampleRandTwo
    exampleMultiPayload "T").1 (by decide)

/-- C9 (counterexample): on the toggle-free trace that selects Stockholm
and receives a payload carrying a station name, both variants issue the
same requests, yet the selected-city state transitions differ: the toggle
variant annotates the selected city with the station fields while the
simpler variant leaves it untouched. -/
theorem claim_C9_counterexample :
    (∀ e ∈ exampleTrace, e.usesToggle = false) ∧
      varRel initialAppState initialAppStateB ∧
      (runA initialAppState exampleTrace).2 =
        (runB initialAppStateB exampleTrace).2 ∧
      (runA initialAppState exampleTrace).1.selectedCity ≠
        (runB initialAppStateB exampleTrace).1.selectedCity := by
  refine ⟨by decide, by decide, by decide, by decide⟩

/-- C9 (amended): over every toggle-free interaction sequence, the two
view variants issue the same sequence of HTTP requests, and their
selected-city states agree on the search-produced fields (id, name,
latitude, longitude); the toggle variant may additionally annotate the
selected city with `station_name`/`station_id` taken from successful
single-city responses, which is the only selection divergence. -/
theorem claim_C9_amended (es : List Event) :
    (∀ e ∈ es, e.usesToggle = false) →
      ∀ (a : AppState) (b : AppStateB), varRel a b →
        (runA a es).2 = (runB b es).2 ∧
          varRel (runA a es).1 (runB b es).1 := by
  induction es with
  | nil =>
      intro _ a b hr
      exact ⟨rfl, hr⟩
  | cons e es ih =>
      intro h a b hr
      have he : e.usesToggle = false := h e (List.mem_cons_self e es)
      have hstep := step_noToggle e he a b hr
      have hrest := ih (fun e2 he2 => h e2 (List.mem_cons_of_mem e he2))
        (stepA a e).1 (stepB b e).1 hstep.2
      constructor
      · simp only [runA, runB]
        rw [hstep.1, hrest.1]
      · simpa only [runA, runB] using hrest.2

/-- C9 (witness): the amended theorem applied to a concrete toggle-free
trace (select a major city, then return to the all-cities view with a
failing fetch): both variants issue exactly the same requests. -/
theorem claim_C9_witness :
    (∀ e ∈ exampleAgreeTrace, e.usesToggle = false) ∧
      varRel initialAppState initialAppStateB ∧
      (runA initialAppState exampleAgreeTrace).2 =
        (runB initialAppStateB exampleAgreeTrace).2 := by
  refine ⟨by decide, by decide, ?_⟩
  exact (claim_C9_amended exampleAgreeTrace (by decide)
    initialAppState initialAppStateB (by decide)).1
